import Mathlib

/-!
Verification development for the RaceBox acceleration-timer core
(`app.js`, most complete iteration: the one with the `finished` freeze flag).

The sample-fusion pipeline and run-lifecycle state machine are embedded
shallowly:

* machine numbers (IEEE doubles in the source) are modelled as rationals `ℚ`;
  every operation the claims touch is exact linear arithmetic plus division,
  so `ℚ` mirrors the source expressions verbatim;
* the two trigonometric geometry helpers `hav` (haversine distance) and
  `headingDeg` (initial bearing) are abstracted as an explicit function
  bundle `GeoFns`; the control flow of the position handler is translated
  faithfully around them;
* `performance.now()` is modelled as the sample's monotonic timestamp `t`
  (the handler reads the clock twice in one call; both reads are modelled
  as the same instant, the sample's arrival time);
* DOM/display writes, the canvas graph, `localStorage` history and the
  geolocation watch handle are display/IO concerns outside the core state
  and are not part of the state record;
* JavaScript truthiness tests on coordinates (`c.latitude && c.longitude`)
  are modelled as the numbers being nonzero.
-/

/-- A geographic coordinate pair (degrees), `{latitude, longitude}`. -/
structure Coord where
  latitude : ℚ
  longitude : ℚ
deriving DecidableEq

/-- One position fix delivered to the handler: `p.coords` fields plus the
monotonic arrival time `performance.now()`.  `speed` is the raw reported
speed in m/s, `none` when the receiver omits it (`c.speed` not a number). -/
structure Sample where
  latitude : ℚ
  longitude : ℚ
  accuracy : ℚ
  speed : Option ℚ
  t : ℚ
deriving DecidableEq

/-- An entry of the rolling sample buffer: `{t, speed}` (speed in km/h). -/
structure TimedSpeed where
  t : ℚ
  speed : ℚ
deriving DecidableEq

/-- A captured milestone value: `marks[m] = {time, speed}`. -/
structure Mark where
  time : ℚ
  speed : ℚ
deriving DecidableEq

/-- The 1-D Kalman filter state `{x, p, q, r}` (speed in m/s). -/
structure Kalman where
  x : ℚ
  p : ℚ
  q : ℚ
  r : ℚ
deriving DecidableEq

/-- The test mode selected in `modeSelect.value`; `other` stands for any
string not equal to one of the five recognised modes (including a missing
select element). -/
inductive Mode where
  | m201
  | m402
  | m0100
  | m0140
  | m60100
  | other
deriving DecidableEq

/-- The abstracted geometry functions: `hav` (haversine distance in meters)
and `headingDeg` (initial bearing in degrees).  The handler's control flow
is parametric in them. -/
structure GeoFns where
  hav : Coord → Coord → ℚ
  headingDeg : Coord → Coord → ℚ

/-- The mutable core state of the IIFE: every variable the position handler
reads or writes, except the display-only ones (`graphSamples`, DOM nodes)
and the watch handle. -/
structure AppState where
  armed : Bool
  running : Bool
  finished : Bool
  startPos : Option Coord
  lastPos : Option Coord
  lastHeading : Option ℚ
  cumulative : ℚ
  startTime : Option ℚ
  peakSpeed : ℚ
  samples : List TimedSpeed
  kalman : Kalman
  marks : ℚ → Option Mark

/-! ## Configuration constants (`CONFIG`) -/

/-- `CONFIG.GHOST_THRESHOLD_KMH` -/
def GHOST_THRESHOLD_KMH : ℚ := 2.5

/-- `CONFIG.START_THRESHOLD_KMH` -/
def START_THRESHOLD_KMH : ℚ := 3

/-- `CONFIG.START_WINDOW_MS` -/
def START_WINDOW_MS : ℚ := 450

/-- `CONFIG.SPEED_SMOOTH_ALPHA` -/
def SPEED_SMOOTH_ALPHA : ℚ := 0.25

/-- `CONFIG.HEADING_MAX_DEG` -/
def HEADING_MAX_DEG : ℚ := 25

/-- `CONFIG.REBUILD_SPEED_MAX_DT` -/
def REBUILD_SPEED_MAX_DT : ℚ := 1200

/-- `CONFIG.ROLL_OUT_M` (one foot in meters) -/
def ROLL_OUT_M : ℚ := 0.3048

/-- `MILESTONES = [20, 100, 201, 402]` -/
def MILESTONES : List ℚ := [20, 100, 201, 402]

/-! ## Pure helpers -/

/-- JavaScript's remainder operator `x % y` for a non-negative dividend and
positive divisor (the only case the source exercises: the dividend
`b - a + 540` is always above 180 there); in that range truncation towards
zero agrees with the floor, so `x % y = x - y * floor (x / y)`. -/
def jsMod (x y : ℚ) : ℚ := x - y * (⌊x / y⌋ : ℤ)

/-- The minimal-angle expression of the source,
`Math.abs(((b - a + 540) % 360) - 180)`, for the difference from bearing
`a` to bearing `b`. -/
def minAngleDiff (a b : ℚ) : ℚ := |jsMod (b - a + 540) 360 - 180|

/-- `lowPass(prev, cur, alpha)` -/
def lowPass (prev cur alpha : ℚ) : ℚ := alpha * cur + (1 - alpha) * prev

/-- `rebuildSpeedFromDelta(dMeters, dtMs)`: speed in km/h rebuilt from a
position delta, `0` on a non-positive time gap. -/
def rebuildSpeedFromDelta (dMeters dtMs : ℚ) : ℚ :=
  if dtMs ≤ 0 then 0 else dMeters / (dtMs / 1000) * 3.6

/-- `kalman.update(z)`: predict (`p += q`), gain `k = p/(p+r)`, state update
`x += k*(z-x)`, covariance shrink `p = (1-k)*p`. -/
def kalmanUpdate (k : Kalman) (z : ℚ) : Kalman :=
  let p1 := k.p + k.q
  let g := p1 / (p1 + k.r)
  { k with x := k.x + g * (z - k.x), p := (1 - g) * p1 }

/-! ## The stages of the position handler `onPos`

Each intermediate value of one `onPos(p)` call is a named function of the
pre-call state and the sample, exactly as the handler computes it in
program order. -/

/-- The current fix as a coordinate pair. -/
def curCoord (p : Sample) : Coord := { latitude := p.latitude, longitude := p.longitude }

/-- `measuredSpeedKmh` before any reconstruction: raw m/s times 3.6, absent
when the receiver reported no speed. -/
def measuredRawKmh (p : Sample) : Option ℚ := p.speed.map (fun s => s * 3.6)

/-- `dtMs`: gap to the newest buffered sample, `0` when the buffer is empty. -/
def dtMsOf (st : AppState) (p : Sample) : ℚ :=
  match st.samples.getLast? with
  | some s => p.t - s.t
  | none => 0

/-- The trigger of the reconstruction path:
`measuredSpeedKmh === null || measuredSpeedKmh < 0.5`. -/
def lowOrAbsent : Option ℚ → Bool
  | none => true
  | some v => decide (v < 0.5)

/-- `headingOk` of the first heading block: accepts unless both a previous
bearing and a fresh bearing exist and their minimal angle difference
exceeds `HEADING_MAX_DEG`. -/
def headingOk (G : GeoFns) (st : AppState) (p : Sample) : Bool :=
  match st.lastPos, st.lastHeading with
  | some lp, some lh => decide (minAngleDiff lh (G.headingDeg lp (curCoord p)) ≤ HEADING_MAX_DEG)
  | _, _ => true

/-- `measuredSpeedKmh` after the delta-reconstruction block: the block runs
only when a previous position exists and both current coordinates are
truthy (nonzero), and rebuilds the speed when the reading is absent or
below 0.5 km/h, the gap is in `(0, REBUILD_SPEED_MAX_DT]`, and
`headingOk` holds. -/
def measuredKmh (G : GeoFns) (st : AppState) (p : Sample) : Option ℚ :=
  let m0 := measuredRawKmh p
  match st.lastPos with
  | none => m0
  | some lp =>
      if p.latitude = 0 ∨ p.longitude = 0 then m0
      else if lowOrAbsent m0 = true ∧ 0 < dtMsOf st p ∧ dtMsOf st p ≤ REBUILD_SPEED_MAX_DT ∧
              headingOk G st p = true then
        some (rebuildSpeedFromDelta (G.hav lp (curCoord p)) (dtMsOf st p))
      else m0

/-- `lastHeading` after the first heading block: overwritten with the fresh
bearing when the block ran and a previous bearing existed, otherwise
unchanged (a `null` previous bearing yields a `null` fresh bearing). -/
def lastHeading1 (G : GeoFns) (st : AppState) (p : Sample) : Option ℚ :=
  match st.lastPos, st.lastHeading with
  | some lp, some _ =>
      if p.latitude = 0 ∨ p.longitude = 0 then st.lastHeading
      else some (G.headingDeg lp (curCoord p))
  | _, _ => st.lastHeading

/-- The ghost-speed floor: a value below `GHOST_THRESHOLD_KMH` becomes
exactly 0. -/
def ghostClamp (v : ℚ) : ℚ := if v < GHOST_THRESHOLD_KMH then 0 else v

/-- `measuredSpeedKmh` after the ghost filter. -/
def measuredFinal (G : GeoFns) (st : AppState) (p : Sample) : Option ℚ :=
  (measuredKmh G st p).map ghostClamp

/-- The Kalman state after this sample: updated with the measurement in m/s
when one exists, untouched otherwise. -/
def kalman1 (G : GeoFns) (st : AppState) (p : Sample) : Kalman :=
  match measuredFinal G st p with
  | some m => kalmanUpdate st.kalman (m / 3.6)
  | none => st.kalman

/-- `smoothKmh`: the Kalman output in km/h, or — without a measurement —
the newest buffered speed (0 on an empty buffer). -/
def smoothKmhOf (G : GeoFns) (st : AppState) (p : Sample) : ℚ :=
  match measuredFinal G st p with
  | some _ => (kalman1 G st p).x * 3.6
  | none =>
      match st.samples.getLast? with
      | some s => s.speed
      | none => 0

/-- `lastSmooth`: the newest buffered speed, defaulting to `smoothKmh`. -/
def lastSmoothOf (G : GeoFns) (st : AppState) (p : Sample) : ℚ :=
  match st.samples.getLast? with
  | some s => s.speed
  | none => smoothKmhOf G st p

/-- `smoothed`: the exponentially smoothed current speed. -/
def smoothedOf (G : GeoFns) (st : AppState) (p : Sample) : ℚ :=
  lowPass (lastSmoothOf G st p) (smoothKmhOf G st p) SPEED_SMOOTH_ALPHA

/-- The rolling buffer after push and prune (entries older than 3000 ms go). -/
def samples1 (G : GeoFns) (st : AppState) (p : Sample) : List TimedSpeed :=
  (st.samples ++ [({ t := p.t, speed := smoothedOf G st p } : TimedSpeed)]).filter
    (fun s => decide (p.t - s.t ≤ 3000))

/-- `peakSpeed` after the per-sample peak update (pre-smoothing measured
speed beats the stored peak). -/
def peak1 (G : GeoFns) (st : AppState) (p : Sample) : ℚ :=
  match measuredFinal G st p with
  | some m => if st.peakSpeed < m then m else st.peakSpeed
  | none => st.peakSpeed

/-- The heading-gated distance delta `d` of the second heading block; the
gate compares the fresh bearing against `lastHeading` as already rewritten
by the first block (`lastHeading1`). -/
def delta (G : GeoFns) (st : AppState) (p : Sample) : ℚ :=
  match st.lastPos with
  | none => 0
  | some lp =>
      match lastHeading1 G st p with
      | some lh =>
          if minAngleDiff lh (G.headingDeg lp (curCoord p)) ≤ HEADING_MAX_DEG then
            G.hav lp (curCoord p)
          else 0
      | none => G.hav lp (curCoord p)

/-- `lastHeading` after the second heading block. -/
def lastHeading2 (G : GeoFns) (st : AppState) (p : Sample) : Option ℚ :=
  match st.lastPos with
  | none => lastHeading1 G st p
  | some lp => some (G.headingDeg lp (curCoord p))

/-- The start-detection condition `ready`: the trailing
`START_WINDOW_MS` window of the (post-push) buffer is non-empty and every
entry in it is at or above `START_THRESHOLD_KMH`. -/
def readyOf (G : GeoFns) (st : AppState) (p : Sample) : Bool :=
  let recent := (samples1 G st p).filter (fun s => decide (p.t - s.t ≤ START_WINDOW_MS))
  !recent.isEmpty && recent.all (fun s => decide (START_THRESHOLD_KMH ≤ s.speed))

/-- `elapsed = (now - startTime) / 1000`; the handler only evaluates it
while running, when `startTime` is set, so the `none` default is inert. -/
def elapsedOf (st : AppState) (p : Sample) : ℚ := (p.t - st.startTime.getD 0) / 1000

/-- `cumulative` after the running-branch accumulation `cumulative += d`. -/
def cumulative2 (G : GeoFns) (st : AppState) (p : Sample) : ℚ :=
  st.cumulative + delta G st p

/-- The milestone rollout offset: one foot when the rollout option is on. -/
def rolloutOffset (ro : Bool) : ℚ := if ro then ROLL_OUT_M else 0

/-- One iteration of the milestone-capture loop body:
`if (!marks[m] && cumulative >= m - rolloutOffset) marks[m] = {time, speed}`. -/
def captureStep (cum off elapsed smoothed : ℚ) (mk : ℚ → Option Mark) (m : ℚ) :
    ℚ → Option Mark :=
  if mk m = none ∧ m - off ≤ cum then
    fun x => if x = m then some { time := elapsed, speed := smoothed } else mk x
  else mk

/-- The milestone-capture loop over `MILESTONES`. -/
def captureMarks (cum off elapsed smoothed : ℚ) (mk : ℚ → Option Mark) :
    ℚ → Option Mark :=
  MILESTONES.foldl (captureStep cum off elapsed smoothed) mk

/-- The milestone map after this sample's capture loop. -/
def marks2 (G : GeoFns) (ro : Bool) (st : AppState) (p : Sample) : ℚ → Option Mark :=
  captureMarks (cumulative2 G st p) (rolloutOffset ro) (elapsedOf st p)
    (smoothedOf G st p) st.marks

/-- `samples.slice(-10)`: the last (at most) ten buffer entries. -/
def last10 (l : List TimedSpeed) : List TimedSpeed := l.drop (l.length - 10)

/-- The finish decision of the running branch: the universal 402 m milestone
rule first, then the mode-specific conditions. -/
def finishNow (G : GeoFns) (mode : Mode) (ro : Bool) (st : AppState) (p : Sample) : Bool :=
  (marks2 G ro st p 402).isSome ||
  (match mode with
   | Mode.m201 => decide (201 - rolloutOffset ro ≤ cumulative2 G st p)
   | Mode.m402 => decide (402 - rolloutOffset ro ≤ cumulative2 G st p)
   | Mode.m0100 => decide (100 ≤ peak1 G st p)
   | Mode.m0140 => decide (140 ≤ peak1 G st p)
   | Mode.m60100 =>
       (last10 (samples1 G st p)).any (fun s => decide (60 ≤ s.speed)) &&
       (last10 (samples1 G st p)).any (fun s => decide (100 ≤ s.speed))
   | Mode.other => false)

/-- `finishRun()` on the core state: freeze into Finished (idempotent),
drop armed/running, clear the volatile buffer; the accumulators, marks,
peak and timestamps keep their values (the run record is built from them
for the external history collaborator). -/
def finishRunState (st : AppState) : AppState :=
  if st.finished then st
  else { st with finished := true, running := false, armed := false, samples := [] }

/-- The position handler `onPos(p)`, translated branch for branch:
early return when frozen; measurement, reconstruction, ghost filter,
Kalman and low-pass smoothing, buffer push/prune, peak update; then the
lifecycle ladder (not armed / waiting for GPS lock / start detection /
running accumulation, milestone capture and finish evaluation). -/
def onPos (G : GeoFns) (mode : Mode) (ro : Bool) (st : AppState) (p : Sample) : AppState :=
  if st.finished then st else
  let cur := curCoord p
  let st1 : AppState :=
    { st with lastHeading := lastHeading1 G st p, kalman := kalman1 G st p,
              samples := samples1 G st p, peakSpeed := peak1 G st p }
  if st.armed = false then { st1 with lastPos := some cur } else
  match st.startPos with
  | none =>
      if p.accuracy ≤ 50 then
        { st1 with startPos := some cur, lastHeading := none, lastPos := some cur }
      else
        { st1 with lastPos := some cur }
  | some _ =>
      let st2 : AppState := { st1 with lastHeading := lastHeading2 G st p }
      if st.running = false then
        if readyOf G st p then
          { st2 with running := true, startTime := some p.t, cumulative := 0,
                     peakSpeed := smoothedOf G st p,
                     samples := [{ t := p.t, speed := smoothedOf G st p }],
                     marks := fun _ => none, lastPos := some cur }
        else
          { st2 with lastPos := some cur }
      else
        let st3 : AppState :=
          { st2 with cumulative := cumulative2 G st p, marks := marks2 G ro st p }
        if finishNow G mode ro st p then
          { finishRunState st3 with lastPos := some cur }
        else
          { st3 with lastPos := some cur }

/-- The state `arm()` produces when invoked from an unarmed state: a fresh
armed cycle.  `arm()` does not touch the Kalman struct, so the filter
state is carried in as a parameter. -/
def armedState (k : Kalman) : AppState :=
  { armed := true, running := false, finished := false,
    startPos := none, lastPos := none, lastHeading := none,
    cumulative := 0, startTime := none, peakSpeed := 0,
    samples := [], kalman := k, marks := fun _ => none }

/-- The states in which the geolocation watch can deliver a sample to
`onPos`: those generated from a fresh arm by sample processing alone
(every command that leaves this set — disarm, stop, reset — also clears
the watch, and `finishRun` freezes the handler). -/
inductive Reaches (G : GeoFns) : AppState → Prop where
  | base (k : Kalman) : Reaches G (armedState k)
  | step (mode : Mode) (ro : Bool) (p : Sample) {st : AppState} :
      Reaches G st → Reaches G (onPos G mode ro st p)

/-! ## Branch lemmas about the handler -/

/-- A finished state is returned unchanged. -/
lemma onPos_of_finished (G : GeoFns) (mode : Mode) (ro : Bool) (st : AppState) (p : Sample)
    (h : st.finished = true) : onPos G mode ro st p = st := by
  simp [onPos, h]

/-- On every non-frozen call the Kalman struct ends up as `kalman1`
regardless of the lifecycle branch taken. -/
lemma onPos_kalman (G : GeoFns) (mode : Mode) (ro : Bool) (st : AppState) (p : Sample)
    (hfin : st.finished = false) : (onPos G mode ro st p).kalman = kalman1 G st p := by
  unfold onPos
  rw [hfin]
  simp only [Bool.false_eq_true, if_false, finishRunState]
  repeat' split
  all_goals rfl

/-! ## Support lemmas for the angular-difference helper -/

/-- `jsMod x 360` on an interval where the quotient's floor is `n`. -/
lemma jsMod_eq_of (x : ℚ) (n : ℤ) (h1 : 360 * (n : ℚ) ≤ x) (h2 : x < 360 * ((n : ℚ) + 1)) :
    jsMod x 360 = x - 360 * (n : ℚ) := by
  have hf : ⌊x / 360⌋ = n := by
    rw [Int.floor_eq_iff]
    constructor
    · rw [le_div_iff₀ (by norm_num : (0 : ℚ) < 360)]
      linarith
    · rw [div_lt_iff₀ (by norm_num : (0 : ℚ) < 360)]
      linarith
  unfold jsMod
  rw [hf]

/-- The piecewise closed form of the minimal-angle expression on one period. -/
def foldAngle (d : ℚ) : ℚ := if d < -180 then d + 360 else if d < 180 then |d| else 360 - d

lemma minAngleDiff_eq_foldAngle (a b : ℚ) (h1 : -360 < b - a) (h2 : b - a < 360) :
    minAngleDiff a b = foldAngle (b - a) := by
  unfold minAngleDiff foldAngle
  rcases lt_or_le (b - a) (-180) with hc | hc
  · rw [if_pos hc, jsMod_eq_of _ 0 (by push_cast; linarith) (by push_cast; linarith)]
    have e : b - a + 540 - 360 * ((0 : ℤ) : ℚ) - 180 = b - a + 360 := by push_cast; ring
    rw [e, abs_of_nonneg (by linarith)]
  · rcases lt_or_le (b - a) 180 with hd | hd
    · rw [if_neg (not_lt.mpr hc), if_pos hd,
        jsMod_eq_of _ 1 (by push_cast; linarith) (by push_cast; linarith)]
      congr 1
      push_cast
      ring
    · rw [if_neg (not_lt.mpr hc), if_neg (not_lt.mpr hd),
        jsMod_eq_of _ 2 (by push_cast; linarith) (by push_cast; linarith)]
      have e : b - a + 540 - 360 * ((2 : ℤ) : ℚ) - 180 = b - a - 360 := by push_cast; ring
      rw [e, abs_of_nonpos (by linarith)]
      ring

/-! ## Claim theorems (first group) -/

/-- C8.  For bearings `a, b` in `[0, 360)` the source's minimal-angle
expression `abs(((b - a + 540) % 360) - 180)` lies in `[0, 180]` and is
symmetric under swapping the two bearings. -/
theorem c8_minAngle (a b : ℚ) (ha0 : 0 ≤ a) (ha1 : a < 360) (hb0 : 0 ≤ b) (hb1 : b < 360) :
    0 ≤ minAngleDiff a b ∧ minAngleDiff a b ≤ 180 ∧ minAngleDiff a b = minAngleDiff b a := by
  have e1 := minAngleDiff_eq_foldAngle a b (by linarith) (by linarith)
  have e2 := minAngleDiff_eq_foldAngle b a (by linarith) (by linarith)
  have hab : a - b = -(b - a) := by ring
  rw [e1, e2, hab]
  set d := b - a with hdd
  have hlo : -360 < d := by rw [hdd]; linarith
  have hhi : d < 360 := by rw [hdd]; linarith
  unfold foldAngle
  rcases lt_or_le d (-180) with h | h
  · rw [if_pos h, if_neg (by linarith : ¬(-d < -180)), if_neg (by linarith : ¬(-d < 180))]
    refine ⟨by linarith, by linarith, by ring⟩
  · rcases eq_or_lt_of_le h with he | hgt
    · rw [if_neg (not_lt.mpr h), if_pos (by linarith : d < 180),
        if_neg (by rw [← he]; norm_num : ¬(-d < -180)),
        if_neg (by rw [← he]; norm_num : ¬(-d < 180)), ← he]
      norm_num
    · rcases lt_or_le d 180 with h2 | h2
      · rw [if_neg (not_lt.mpr h), if_pos h2, if_neg (by linarith : ¬(-d < -180)),
          if_pos (by linarith : -d < 180), abs_neg]
        refine ⟨abs_nonneg d, ?_, rfl⟩
        rcases abs_cases d with ⟨hh, _⟩ | ⟨hh, _⟩ <;> linarith
      · rcases eq_or_lt_of_le h2 with he2 | hgt2
        · rw [if_neg (by linarith : ¬(d < -180)), if_neg (not_lt.mpr h2),
            if_neg (by rw [← he2]; norm_num : ¬(-d < -180)),
            if_pos (by rw [← he2]; norm_num : -d < 180), ← he2]
          norm_num
        · rw [if_neg (by linarith : ¬(d < -180)), if_neg (not_lt.mpr h2),
            if_pos (by linarith : -d < -180)]
          refine ⟨by linarith, by linarith, by ring⟩

/-- Witness for C8 at the wraparound pair (10°, 350°). -/
theorem c8_minAngle_witness :
    0 ≤ minAngleDiff 10 350 ∧ minAngleDiff 10 350 ≤ 180 ∧
    minAngleDiff 10 350 = minAngleDiff 350 10 :=
  c8_minAngle 10 350 (by norm_num) (by norm_num) (by norm_num) (by norm_num)

/-- The update's covariance in closed form. -/
lemma kalmanUpdate_p_eq (k : Kalman) (z : ℚ) (hden : 0 < k.p + k.q + k.r) :
    (kalmanUpdate k z).p = k.r * (k.p + k.q) / (k.p + k.q + k.r) := by
  simp only [kalmanUpdate]
  field_simp

/-- One update from positive parameters keeps the covariance positive and
leaves the noise parameters untouched. -/
lemma kalmanUpdate_p_pos (k : Kalman) (z : ℚ) (hp : 0 < k.p) (hq : 0 < k.q) (hr : 0 < k.r) :
    0 < (kalmanUpdate k z).p := by
  have hden : 0 < k.p + k.q + k.r := by linarith
  rw [kalmanUpdate_p_eq k z hden]
  positivity

lemma kalmanUpdate_q_r (k : Kalman) (z : ℚ) :
    (kalmanUpdate k z).q = k.q ∧ (kalmanUpdate k z).r = k.r := ⟨rfl, rfl⟩

/-- Covariance positivity is preserved by any sequence of updates. -/
lemma kalman_fold_p_pos (zs : List ℚ) (k : Kalman) (hp : 0 < k.p) (hq : 0 < k.q)
    (hr : 0 < k.r) : 0 < (zs.foldl kalmanUpdate k).p := by
  induction zs generalizing k with
  | nil => exact hp
  | cons z zs ih =>
      exact ih (kalmanUpdate k z) (kalmanUpdate_p_pos k z hp hq hr) hq hr

/-- C10.  From strictly positive covariance and noise parameters, one
Kalman update produces covariance exactly `r*(p+q)/((p+q)+r)`, strictly
positive and strictly below `r`, with the gain strictly between 0 and 1 —
hence the covariance stays strictly positive across every sequence of
update calls. -/
theorem c10_kalman (k : Kalman) (z : ℚ) (hp : 0 < k.p) (hq : 0 < k.q) (hr : 0 < k.r) :
    (kalmanUpdate k z).p = k.r * (k.p + k.q) / (k.p + k.q + k.r) ∧
    0 < (kalmanUpdate k z).p ∧ (kalmanUpdate k z).p < k.r ∧
    0 < (k.p + k.q) / (k.p + k.q + k.r) ∧ (k.p + k.q) / (k.p + k.q + k.r) < 1 ∧
    ∀ zs : List ℚ, 0 < (zs.foldl kalmanUpdate k).p := by
  have hpq : 0 < k.p + k.q := by linarith
  have hden : 0 < k.p + k.q + k.r := by linarith
  have he := kalmanUpdate_p_eq k z hden
  refine ⟨he, kalmanUpdate_p_pos k z hp hq hr, ?_, ?_, ?_, ?_⟩
  · rw [he, div_lt_iff₀ hden]
    nlinarith
  · positivity
  · rw [div_lt_one hden]
    linarith
  · intro zs
    exact kalman_fold_p_pos zs k hp hq hr

/-- Witness for C10 at the configured defaults `p = 1, q = 0.1, r = 2`. -/
theorem c10_kalman_witness :
    (kalmanUpdate { x := 0, p := 1, q := 0.1, r := 2 } 5).p = 2 * (1 + 0.1) / (1 + 0.1 + 2) ∧
    0 < (kalmanUpdate { x := 0, p := 1, q := 0.1, r := 2 } 5).p ∧
    (kalmanUpdate { x := 0, p := 1, q := 0.1, r := 2 } 5).p < 2 ∧
    (0 < ((1 : ℚ) + 0.1) / (1 + 0.1 + 2) ∧ ((1 : ℚ) + 0.1) / (1 + 0.1 + 2) < 1) ∧
    0 < (([3, 1, 4] : List ℚ).foldl kalmanUpdate { x := 0, p := 1, q := 0.1, r := 2 }).p := by
  have h := c10_kalman { x := 0, p := 1, q := 0.1, r := 2 } 5
    (by norm_num) (by norm_num) (by norm_num)
  exact ⟨h.1, h.2.1, h.2.2.1, ⟨h.2.2.2.1, h.2.2.2.2.1⟩, h.2.2.2.2.2 [3, 1, 4]⟩

/-- C1.  Once the finished flag is set the handler returns immediately:
the whole frozen state — cumulative distance, start timestamp, peak speed
and every milestone — is identical before and after the call, for every
sample, mode and rollout setting. -/
theorem c1_freeze (G : GeoFns) (mode : Mode) (ro : Bool) (st : AppState) (p : Sample)
    (h : st.finished = true) : onPos G mode ro st p = st := by
  simp [onPos, h]

/-- A concrete frozen state for the C1 witness. -/
def c1St : AppState :=
  { armed := false, running := false, finished := true,
    startPos := some { latitude := 1, longitude := 1 },
    lastPos := some { latitude := 1, longitude := 1 }, lastHeading := some 0,
    cumulative := 403, startTime := some 0, peakSpeed := 150,
    samples := [], kalman := { x := 0, p := 1, q := 0.1, r := 2 },
    marks := fun _ => none }

/-- The zero geometry bundle used by concrete witnesses. -/
def G0 : GeoFns := { hav := fun _ _ => 0, headingDeg := fun _ _ => 0 }

/-- A concrete sample for the C1 witness. -/
def c1P : Sample := { latitude := 1, longitude := 1, accuracy := 5, speed := some 10, t := 100 }

/-- Witness for C1: a finished state is untouched by a further sample. -/
theorem c1_freeze_witness :
    c1St.finished = true ∧ onPos G0 Mode.m402 false c1St c1P = c1St :=
  ⟨rfl, c1_freeze G0 Mode.m402 false c1St c1P rfl⟩

/-- C5.  A present measured speed (after the optional reconstruction)
below the ghost threshold is replaced by exactly 0 before the m/s
conversion feeds the Kalman filter; at or above the threshold it enters
the filter unmodified. -/
theorem c5_ghost (G : GeoFns) (mode : Mode) (ro : Bool) (st : AppState) (p : Sample) (m : ℚ)
    (hfin : st.finished = false) (hm : measuredKmh G st p = some m) :
    (onPos G mode ro st p).kalman =
      kalmanUpdate st.kalman ((if m < GHOST_THRESHOLD_KMH then 0 else m) / 3.6) ∧
    (GHOST_THRESHOLD_KMH ≤ m →
      (onPos G mode ro st p).kalman = kalmanUpdate st.kalman (m / 3.6)) := by
  have hk : (onPos G mode ro st p).kalman = kalman1 G st p :=
    onPos_kalman G mode ro st p hfin
  have h1 : kalman1 G st p = kalmanUpdate st.kalman (ghostClamp m / 3.6) := by
    unfold kalman1 measuredFinal
    rw [hm]
    rfl
  constructor
  · rw [hk, h1]
    rfl
  · intro hge
    rw [hk, h1]
    unfold ghostClamp
    rw [if_neg (not_lt.mpr hge)]

/-- A concrete sample for the C5 witness: reported speed 0.5 m/s, i.e.
1.8 km/h, below the ghost threshold. -/
def c5P : Sample := { latitude := 1, longitude := 1, accuracy := 5, speed := some 0.5, t := 100 }

/-- The default Kalman struct right after `kalman.reset(0)`. -/
def k0 : Kalman := { x := 0, p := 1, q := 0.1, r := 2 }

/-- Witness for C5: a 1.8 km/h reading is clamped to an exact 0
measurement for the filter. -/
theorem c5_ghost_witness :
    (onPos G0 Mode.other false (armedState k0) c5P).kalman = kalmanUpdate k0 0 := by
  have h := (c5_ghost G0 Mode.other false (armedState k0) c5P 1.8 rfl
    (by norm_num [measuredKmh, measuredRawKmh, armedState, c5P])).1
  rw [h]
  norm_num [GHOST_THRESHOLD_KMH, armedState]

/-! ## Support lemmas for the milestone-capture loop -/

lemma captureStep_ne (cum off e s : ℚ) (mk : ℚ → Option Mark) (mil x : ℚ) (hx : x ≠ mil) :
    captureStep cum off e s mk mil x = mk x := by
  unfold captureStep
  split
  · simp [hx]
  · rfl

lemma captureStep_some (cum off e s : ℚ) (mk : ℚ → Option Mark) (mil x : ℚ) (v : Mark)
    (hv : mk x = some v) : captureStep cum off e s mk mil x = some v := by
  unfold captureStep
  by_cases h : mk mil = none ∧ mil - off ≤ cum
  · rw [if_pos h]
    by_cases hx : x = mil
    · subst hx
      rw [hv] at h
      simp at h
    · simp [hx, hv]
  · rw [if_neg h]
    exact hv

lemma captureFold_some (cum off e s : ℚ) (L : List ℚ) (mk : ℚ → Option Mark) (m : ℚ) (v : Mark)
    (hv : mk m = some v) : (L.foldl (captureStep cum off e s) mk) m = some v := by
  induction L generalizing mk with
  | nil => exact hv
  | cons a L ih => exact ih _ (captureStep_some cum off e s mk a m v hv)

lemma captureFold_below (cum off e s : ℚ) (L : List ℚ) (mk : ℚ → Option Mark) (m : ℚ)
    (hm : mk m = none) (hc : ¬ m - off ≤ cum) :
    (L.foldl (captureStep cum off e s) mk) m = none := by
  induction L generalizing mk with
  | nil => exact hm
  | cons a L ih =>
      apply ih
      unfold captureStep
      by_cases h : mk a = none ∧ a - off ≤ cum
      · rw [if_pos h]
        by_cases hx : m = a
        · subst hx
          exact absurd h.2 hc
        · simp only [if_neg hx]
          exact hm
      · rw [if_neg h]
        exact hm

lemma captureFold_mem (cum off e s : ℚ) (L : List ℚ) (mk : ℚ → Option Mark) (m : ℚ)
    (hmem : m ∈ L) (hm : mk m = none) :
    (L.foldl (captureStep cum off e s) mk) m =
      if m - off ≤ cum then some { time := e, speed := s } else none := by
  by_cases hc : m - off ≤ cum
  · rw [if_pos hc]
    induction L generalizing mk with
    | nil => cases hmem
    | cons a L ih =>
        by_cases hx : m = a
        · subst hx
          have hstep : captureStep cum off e s mk m m = some { time := e, speed := s } := by
            unfold captureStep
            rw [if_pos ⟨hm, hc⟩]
            simp
          exact captureFold_some cum off e s L _ m _ hstep
        · have hmem2 : m ∈ L := by
            rcases List.mem_cons.mp hmem with h | h
            · exact absurd h hx
            · exact h
          refine ih _ hmem2 ?_
          unfold captureStep
          by_cases hcond : mk a = none ∧ a - off ≤ cum
          · rw [if_pos hcond]
            simp only [if_neg hx]
            exact hm
          · rw [if_neg hcond]
            exact hm
  · rw [if_neg hc]
    exact captureFold_below cum off e s L mk m hm hc

lemma marks2_of_none (G : GeoFns) (ro : Bool) (st : AppState) (p : Sample) (m : ℚ)
    (hmem : m ∈ MILESTONES) (hm : st.marks m = none) :
    marks2 G ro st p m =
      if m - rolloutOffset ro ≤ cumulative2 G st p
      then some { time := elapsedOf st p, speed := smoothedOf G st p } else none :=
  captureFold_mem _ _ _ _ MILESTONES st.marks m hmem hm

lemma marks2_of_some (G : GeoFns) (ro : Bool) (st : AppState) (p : Sample) (m : ℚ) (v : Mark)
    (hm : st.marks m = some v) : marks2 G ro st p m = some v :=
  captureFold_some _ _ _ _ MILESTONES st.marks m v hm

/-- In the running branch the milestone map ends up as `marks2`,
whether or not the sample also finishes the run. -/
lemma onPos_marks_running (G : GeoFns) (mode : Mode) (ro : Bool) (st : AppState) (p : Sample)
    (q : Coord) (hfin : st.finished = false) (harm : st.armed = true)
    (hsp : st.startPos = some q) (hrun : st.running = true) :
    (onPos G mode ro st p).marks = marks2 G ro st p := by
  unfold onPos
  rw [hfin, hsp, harm, hrun]
  simp only [Bool.false_eq_true, if_false, Bool.true_eq_false, finishRunState]
  repeat' split
  all_goals rfl

/-- Outside the armed ladder the milestone map is untouched. -/
lemma onPos_marks_notArmed (G : GeoFns) (mode : Mode) (ro : Bool) (st : AppState) (p : Sample)
    (hfin : st.finished = false) (harm : st.armed = false) :
    (onPos G mode ro st p).marks = st.marks := by
  unfold onPos
  rw [hfin, harm]
  rfl

/-- While waiting for the GPS lock the milestone map is untouched. -/
lemma onPos_marks_noStart (G : GeoFns) (mode : Mode) (ro : Bool) (st : AppState) (p : Sample)
    (hfin : st.finished = false) (harm : st.armed = true) (hsp : st.startPos = none) :
    (onPos G mode ro st p).marks = st.marks := by
  unfold onPos
  rw [hfin, harm, hsp]
  simp only [Bool.false_eq_true, if_false, Bool.true_eq_false]
  split <;> rfl

/-- C2.  While Running, a configured milestone with no capture yet gets
captured on exactly the sample whose (heading-gated) cumulative distance
first reaches `M - rolloutOffset`, recording the elapsed time and the
current smoothed speed; and an existing capture survives every further
sample of the run, running or frozen. -/
theorem c2_milestones (G : GeoFns) (mode : Mode) (ro : Bool) (m : ℚ) (hmem : m ∈ MILESTONES) :
    (∀ (st : AppState) (p : Sample) (q : Coord),
      st.finished = false → st.armed = true → st.startPos = some q → st.running = true →
      st.marks m = none →
      (onPos G mode ro st p).marks m =
        if m - rolloutOffset ro ≤ cumulative2 G st p
        then some { time := elapsedOf st p, speed := smoothedOf G st p } else none) ∧
    (∀ (st : AppState) (p : Sample) (v : Mark),
      st.running = true ∨ st.finished = true →
      st.marks m = some v → (onPos G mode ro st p).marks m = some v) := by
  constructor
  · intro st p q hfin harm hsp hrun hm
    rw [onPos_marks_running G mode ro st p q hfin harm hsp hrun]
    exact marks2_of_none G ro st p m hmem hm
  · intro st p v hcase hm
    by_cases hfin : st.finished = true
    · rw [onPos_of_finished G mode ro st p hfin]
      exact hm
    · have hrun : st.running = true := hcase.resolve_right hfin
      rw [Bool.not_eq_true] at hfin
      by_cases harm : st.armed = true
      · cases hsp : st.startPos with
        | none =>
            rw [onPos_marks_noStart G mode ro st p hfin harm hsp]
            exact hm
        | some q =>
            rw [onPos_marks_running G mode ro st p q hfin harm hsp hrun]
            exact marks2_of_some G ro st p m v hm
      · rw [Bool.not_eq_true] at harm
        rw [onPos_marks_notArmed G mode ro st p hfin harm]
        exact hm

/-- Geometry bundle for the C2 witness: every segment is 10 m long with
constant bearing 0°. -/
def c2G : GeoFns := { hav := fun _ _ => 10, headingDeg := fun _ _ => 0 }

/-- Running state for the C2 witness: 15 m accumulated, 20 m milestone
still open, one buffered sample at 36 km/h. -/
def c2St : AppState :=
  { armed := true, running := true, finished := false,
    startPos := some { latitude := 1, longitude := 1 },
    lastPos := some { latitude := 1, longitude := 1 }, lastHeading := some 0,
    cumulative := 15, startTime := some 0, peakSpeed := 40,
    samples := [{ t := 900, speed := 36 }], kalman := { x := 10, p := 1, q := 0.1, r := 2 },
    marks := fun _ => none }

/-- Sample for the C2 witness: steady 10 m/s (36 km/h) at t = 1000 ms. -/
def c2P : Sample := { latitude := 1, longitude := 1, accuracy := 5, speed := some 10, t := 1000 }

/-- Witness for C2: the 10 m segment lifts cumulative distance from 15 m
to 25 m, so the 20 m milestone is captured with elapsed 1 s at 36 km/h. -/
theorem c2_milestones_witness :
    (onPos c2G Mode.other false c2St c2P).marks 20 = some { time := 1, speed := 36 } := by
  have h := (c2_milestones c2G Mode.other false 20 (by norm_num [MILESTONES])).1
    c2St c2P { latitude := 1, longitude := 1 } rfl rfl rfl rfl rfl
  rw [h]
  norm_num [rolloutOffset, cumulative2, delta, elapsedOf, smoothedOf, lastSmoothOf,
    smoothKmhOf, measuredFinal, measuredKmh, measuredRawKmh, lowOrAbsent, dtMsOf,
    kalman1, kalmanUpdate, ghostClamp, lastHeading1, minAngleDiff, jsMod, curCoord,
    lowPass, c2St, c2P, c2G, GHOST_THRESHOLD_KMH, HEADING_MAX_DEG,
    REBUILD_SPEED_MAX_DT, SPEED_SMOOTH_ALPHA]

/-- C3.  From Armed with a locked start position and not yet running, the
transition to Running happens exactly when the trailing 450 ms window of
the rolling buffer is non-empty with every entry at or above 3 km/h; on
the transition the start timestamp latches to the sample time, cumulative
distance zeroes, peak speed becomes the current smoothed speed, the
buffer collapses to just the current sample, and every milestone clears. -/
theorem c3_start (G : GeoFns) (mode : Mode) (ro : Bool) (st : AppState) (p : Sample) (q : Coord)
    (hfin : st.finished = false) (harm : st.armed = true) (hsp : st.startPos = some q)
    (hrun : st.running = false) :
    ((onPos G mode ro st p).running = true ↔ readyOf G st p = true) ∧
    (readyOf G st p = true →
      (onPos G mode ro st p).startTime = some p.t ∧
      (onPos G mode ro st p).cumulative = 0 ∧
      (onPos G mode ro st p).peakSpeed = smoothedOf G st p ∧
      (onPos G mode ro st p).samples = [{ t := p.t, speed := smoothedOf G st p }] ∧
      (∀ mm : ℚ, (onPos G mode ro st p).marks mm = none)) := by
  unfold onPos
  rw [hfin, harm, hsp, hrun]
  simp only [Bool.false_eq_true, if_false, Bool.true_eq_false]
  by_cases hready : readyOf G st p = true
  · simp [hready]
  · simp [hready]

/-- Armed state for the C3 witness: two buffered samples at 5 km/h, 100 ms
apart, GPS lock already acquired. -/
def c3St : AppState :=
  { armed := true, running := false, finished := false,
    startPos := some { latitude := 1, longitude := 1 },
    lastPos := some { latitude := 1, longitude := 1 }, lastHeading := none,
    cumulative := 0, startTime := none, peakSpeed := 0,
    samples := [{ t := 800, speed := 5 }, { t := 900, speed := 5 }],
    kalman := { x := 25 / 18, p := 1, q := 0.1, r := 2 },
    marks := fun _ => none }

/-- Sample for the C3 witness: steady 25/18 m/s (5 km/h) at t = 1000 ms. -/
def c3P : Sample :=
  { latitude := 1, longitude := 1, accuracy := 5, speed := some (25 / 18), t := 1000 }

/-- Witness for C3: the 450 ms window holds three samples at 5 km/h ≥ 3,
so this sample starts the run. -/
theorem c3_start_witness :
    (onPos G0 Mode.other false c3St c3P).running = true ∧
    (onPos G0 Mode.other false c3St c3P).startTime = some 1000 ∧
    (onPos G0 Mode.other false c3St c3P).cumulative = 0 ∧
    (onPos G0 Mode.other false c3St c3P).samples = [{ t := 1000, speed := 5 }] := by
  have hready : readyOf G0 c3St c3P = true := by
    norm_num [readyOf, samples1, smoothedOf, lastSmoothOf, smoothKmhOf, measuredFinal,
      measuredKmh, measuredRawKmh, lowOrAbsent, dtMsOf, kalman1, kalmanUpdate, ghostClamp,
      lastHeading1, curCoord, lowPass, c3St, c3P, G0, GHOST_THRESHOLD_KMH,
      SPEED_SMOOTH_ALPHA, START_WINDOW_MS, START_THRESHOLD_KMH]
  have h := c3_start G0 Mode.other false c3St c3P { latitude := 1, longitude := 1 }
    rfl rfl rfl rfl
  have h2 := h.2 hready
  refine ⟨h.1.mpr hready, ?_, h2.2.1, ?_⟩
  · rw [h2.1]
    rfl
  · rw [h2.2.2.2.1]
    norm_num [smoothedOf, lastSmoothOf, smoothKmhOf, measuredFinal, measuredKmh,
      measuredRawKmh, lowOrAbsent, dtMsOf, kalman1, kalmanUpdate, ghostClamp,
      lastHeading1, curCoord, lowPass, c3St, c3P, G0, GHOST_THRESHOLD_KMH,
      SPEED_SMOOTH_ALPHA]

/-! ## Reachability invariant for distance accumulation -/

/-- One step preserves the invariant "not running and not finished implies
zero accumulated distance". -/
lemma onPos_cum_inv (G : GeoFns) (mode : Mode) (ro : Bool) (st : AppState) (p : Sample)
    (ih : st.running = false → st.finished = false → st.cumulative = 0) :
    (onPos G mode ro st p).running = false → (onPos G mode ro st p).finished = false →
    (onPos G mode ro st p).cumulative = 0 := by
  by_cases hfin : st.finished = true
  · rw [onPos_of_finished G mode ro st p hfin]
    exact ih
  rw [Bool.not_eq_true] at hfin
  unfold onPos
  rw [hfin]
  simp only [Bool.false_eq_true, if_false]
  split
  next harm =>
    intro h1 _
    exact ih h1 hfin
  next harm =>
    split
    next hsp =>
      split
      next hacc =>
        intro h1 _
        exact ih h1 hfin
      next hacc =>
        intro h1 _
        exact ih h1 hfin
    next q hsp =>
      split
      next hrun =>
        split
        next hready =>
          intro h1 _
          simp at h1
        next hready =>
          intro h1 _
          exact ih h1 hfin
      next hrun =>
        split
        next hfinish =>
          intro _ h2
          simp [finishRunState, hfin] at h2
        next hfinish =>
          intro h1 _
          exact absurd h1 hrun

/-- Every state the watch can deliver a sample in satisfies: outside
Running (and not frozen) the accumulated distance is zero. -/
lemma reaches_cum_zero (G : GeoFns) {st : AppState} (h : Reaches G st) :
    st.running = false → st.finished = false → st.cumulative = 0 := by
  induction h with
  | base k =>
      intro _ _
      rfl
  | step mode ro p hst ih => exact onPos_cum_inv G mode ro _ p ih

/-- C4.  Accumulated distance changes only on samples processed in the
Running state: in any reachable processing state that is not armed, or
armed without a locked start position, or armed but not yet running, the
handler leaves `cumulative` exactly as it was. -/
theorem c4_accumulation (G : GeoFns) (mode : Mode) (ro : Bool) (st : AppState) (p : Sample)
    (hre : Reaches G st)
    (hcase : st.armed = false ∨ st.startPos = none ∨ st.running = false) :
    (onPos G mode ro st p).cumulative = st.cumulative := by
  by_cases hfin : st.finished = true
  · rw [onPos_of_finished G mode ro st p hfin]
  rw [Bool.not_eq_true] at hfin
  unfold onPos
  rw [hfin]
  simp only [Bool.false_eq_true, if_false]
  split
  next harm => rfl
  next harm =>
    split
    next hsp =>
      split
      next hacc => rfl
      next hacc => rfl
    next q hsp =>
      split
      next hrun =>
        split
        next hready => exact (reaches_cum_zero G hre hrun hfin).symm
        next hready => rfl
      next hrun =>
        rcases hcase with h | h | h
        · exact absurd h harm
        · rw [h] at hsp
          simp at hsp
        · exact absurd h hrun

/-- Witness for C4: the first sample after arming (no GPS lock yet) leaves
the zero accumulated distance unchanged. -/
theorem c4_accumulation_witness :
    (onPos G0 Mode.other false (armedState k0) c1P).cumulative = (armedState k0).cumulative :=
  c4_accumulation G0 Mode.other false (armedState k0) c1P (Reaches.base k0)
    (Or.inr (Or.inl rfl))

/-! ## C6: speed reconstruction from the position delta -/

/-- Geometry bundle for C6: every segment is 7 m long, bearing 0°. -/
def c6G : GeoFns := { hav := fun _ _ => 7, headingDeg := fun _ _ => 0 }

/-- Pre-state for the C6 counterexample: previous position present, one
buffered sample 500 ms old, no previous bearing (gate accepts). -/
def c6St : AppState :=
  { armed := true, running := false, finished := false,
    startPos := some { latitude := 1, longitude := 1 },
    lastPos := some { latitude := 1, longitude := 1 }, lastHeading := none,
    cumulative := 0, startTime := none, peakSpeed := 0,
    samples := [{ t := 1000, speed := 0 }], kalman := k0,
    marks := fun _ => none }

/-- Sample for the C6 counterexample: a fix on the equator (latitude
exactly 0) with no reported speed, 500 ms after the previous one. -/
def c6P : Sample := { latitude := 0, longitude := 1, accuracy := 5, speed := none, t := 1500 }

/-- Counterexample to C6 as stated: the reading is absent, a previous
position exists, the gap is 500 ms (within the 1200 ms window) and the
heading gate accepts, yet no reconstruction happens — the handler's
truthiness test `c.latitude && c.longitude` skips the whole delta block
because the latitude is 0, and the absent reading stays absent instead of
becoming the claimed `distance/dt` value. -/
theorem c6_reconstruction_cex :
    measuredRawKmh c6P = none ∧
    c6St.lastPos = some { latitude := 1, longitude := 1 } ∧
    0 < dtMsOf c6St c6P ∧ dtMsOf c6St c6P ≤ REBUILD_SPEED_MAX_DT ∧
    headingOk c6G c6St c6P = true ∧
    measuredKmh c6G c6St c6P = none ∧
    measuredKmh c6G c6St c6P ≠
      some (rebuildSpeedFromDelta
        (c6G.hav { latitude := 1, longitude := 1 } (curCoord c6P)) (dtMsOf c6St c6P)) := by
  have hnone : measuredKmh c6G c6St c6P = none := by
    norm_num [measuredKmh, measuredRawKmh, c6St, c6P]
  refine ⟨rfl, rfl, ?_, ?_, rfl, hnone, ?_⟩
  · norm_num [dtMsOf, c6St, c6P]
  · norm_num [dtMsOf, c6St, c6P, REBUILD_SPEED_MAX_DT]
  · rw [hnone]
    simp

/-- C6 amended.  On a fix whose coordinates are both nonzero (the
handler's truthiness guard for the delta block), a reading that is absent
or below 0.5 km/h is reconstructed as `distanceMeters(prev,cur)/dtSeconds
* 3.6` exactly when a previous position exists, the gap lies in
`(0, 1200]` ms and the heading gate accepts; and an absent reading stays
absent whenever the previous position is missing, the gap is outside the
window, or the gate rejects. -/
theorem c6_reconstruction (G : GeoFns) (st : AppState) (p : Sample) :
    (∀ lp : Coord, st.lastPos = some lp → p.latitude ≠ 0 → p.longitude ≠ 0 →
      lowOrAbsent (measuredRawKmh p) = true →
      0 < dtMsOf st p → dtMsOf st p ≤ REBUILD_SPEED_MAX_DT → headingOk G st p = true →
      measuredKmh G st p =
        some (rebuildSpeedFromDelta (G.hav lp (curCoord p)) (dtMsOf st p))) ∧
    (measuredRawKmh p = none →
      (st.lastPos = none ∨ ¬ 0 < dtMsOf st p ∨ ¬ dtMsOf st p ≤ REBUILD_SPEED_MAX_DT ∨
        headingOk G st p = false) →
      measuredKmh G st p = none) := by
  constructor
  · intro lp hlp hlat hlon hlow hdt1 hdt2 hok
    simp only [measuredKmh, hlp]
    rw [if_neg (not_or.mpr ⟨hlat, hlon⟩), if_pos ⟨hlow, hdt1, hdt2, hok⟩]
  · intro hnone hfail
    cases hlp : st.lastPos with
    | none =>
        simp only [measuredKmh, hlp]
        exact hnone
    | some lp =>
        simp only [measuredKmh, hlp]
        by_cases hz : p.latitude = 0 ∨ p.longitude = 0
        · rw [if_pos hz]
          exact hnone
        · rw [if_neg hz, if_neg ?_]
          · exact hnone
          · rcases hfail with h | h | h | h
            · rw [hlp] at h
              cases h
            · intro hcon
              exact h hcon.2.1
            · intro hcon
              exact h hcon.2.2.1
            · intro hcon
              rw [hcon.2.2.2] at h
              cases h

/-- Pre-state for the C6 amended witness (same as the counterexample state). -/
def c6wSt : AppState :=
  { armed := true, running := false, finished := false,
    startPos := some { latitude := 1, longitude := 1 },
    lastPos := some { latitude := 1, longitude := 1 }, lastHeading := none,
    cumulative := 0, startTime := none, peakSpeed := 0,
    samples := [{ t := 1000, speed := 0 }], kalman := k0,
    marks := fun _ => none }

/-- Sample for the C6 amended witness: nonzero coordinates, absent speed. -/
def c6wP : Sample := { latitude := 2, longitude := 2, accuracy := 5, speed := none, t := 1500 }

/-- Witness for amended C6: a 7 m delta over 500 ms reconstructs to
50.4 km/h. -/
theorem c6_reconstruction_witness :
    measuredKmh c6G c6wSt c6wP = some (252 / 5) := by
  have h := (c6_reconstruction c6G c6wSt c6wP).1 { latitude := 1, longitude := 1 } rfl
    (by norm_num [c6wP]) (by norm_num [c6wP]) rfl
    (by norm_num [dtMsOf, c6wSt, c6wP])
    (by norm_num [dtMsOf, c6wSt, c6wP, REBUILD_SPEED_MAX_DT]) rfl
  rw [h]
  norm_num [rebuildSpeedFromDelta, dtMsOf, c6wSt, c6wP, c6G, curCoord]

/-- In the running branch the accumulated distance ends up as
`cumulative2`, whether or not the sample finishes the run. -/
lemma onPos_cumulative_running (G : GeoFns) (mode : Mode) (ro : Bool) (st : AppState)
    (p : Sample) (q : Coord) (hfin : st.finished = false) (harm : st.armed = true)
    (hsp : st.startPos = some q) (hrun : st.running = true) :
    (onPos G mode ro st p).cumulative = cumulative2 G st p := by
  unfold onPos
  rw [hfin, harm, hsp, hrun]
  simp only [Bool.false_eq_true, if_false, Bool.true_eq_false, finishRunState]
  repeat' split
  all_goals rfl

/-- In the running branch the bearing memory ends up as `lastHeading2`,
whether or not the sample finishes the run. -/
lemma onPos_lastHeading_running (G : GeoFns) (mode : Mode) (ro : Bool) (st : AppState)
    (p : Sample) (q : Coord) (hfin : st.finished = false) (harm : st.armed = true)
    (hsp : st.startPos = some q) (hrun : st.running = true) :
    (onPos G mode ro st p).lastHeading = lastHeading2 G st p := by
  unfold onPos
  rw [hfin, harm, hsp, hrun]
  simp only [Bool.false_eq_true, if_false, Bool.true_eq_false, finishRunState]
  repeat' split
  all_goals rfl

/-- In the running branch the finished flag after the call is exactly the
finish decision. -/
lemma onPos_finished_running (G : GeoFns) (mode : Mode) (ro : Bool) (st : AppState)
    (p : Sample) (q : Coord) (hfin : st.finished = false) (harm : st.armed = true)
    (hsp : st.startPos = some q) (hrun : st.running = true) :
    (onPos G mode ro st p).finished = finishNow G mode ro st p := by
  unfold onPos
  rw [hfin, harm, hsp, hrun]
  simp only [Bool.false_eq_true, if_false, Bool.true_eq_false, finishRunState]
  split
  next h => simp [h]
  next h =>
    rw [Bool.not_eq_true] at h
    exact h.symm

/-- In the running branch of a sample that does not finish the run, the
buffer ends up as `samples1`. -/
lemma onPos_samples_running (G : GeoFns) (mode : Mode) (ro : Bool) (st : AppState)
    (p : Sample) (q : Coord) (hfin : st.finished = false) (harm : st.armed = true)
    (hsp : st.startPos = some q) (hrun : st.running = true)
    (hnf : finishNow G mode ro st p = false) :
    (onPos G mode ro st p).samples = samples1 G st p := by
  unfold onPos
  rw [hfin, harm, hsp, hrun, hnf]
  simp only [Bool.false_eq_true, if_false, Bool.true_eq_false]

/-! ## C7: the distance heading gate -/

/-- Geometry bundle for C7: every segment is 10 m long with bearing 90°. -/
def c7G : GeoFns := { hav := fun _ _ => 10, headingDeg := fun _ _ => 90 }

/-- Running state for C7: the recorded bearing is 0°, zero distance so far. -/
def c7St : AppState :=
  { armed := true, running := true, finished := false,
    startPos := some { latitude := 1, longitude := 1 },
    lastPos := some { latitude := 1, longitude := 1 }, lastHeading := some 0,
    cumulative := 0, startTime := some 0, peakSpeed := 50,
    samples := [{ t := 900, speed := 50 }], kalman := { x := 10, p := 1, q := 0.1, r := 2 },
    marks := fun _ => none }

/-- Sample for C7: nonzero coordinates, reported speed 10 m/s, 100 ms later;
its bearing from the previous position is 90°, a 90° turn. -/
def c7P : Sample := { latitude := 1, longitude := 2, accuracy := 5, speed := some 10, t := 1000 }

/-- C7 at its failing input.  The bearing to the new fix differs from the
recorded bearing by 90° > 25°, so the claim (and the spec's heading gate)
demand a zero distance contribution — but the handler adds the full 10 m
segment: the reconstruction block earlier in the same call already
overwrote `lastHeading` with the new bearing, so the gate at the distance
step compares the new bearing with itself and always passes.  The bearing
memory does end up at the new bearing, as the claim states. -/
theorem c7_heading_gate_bug :
    c7St.lastHeading = some 0 ∧
    minAngleDiff 0 (c7G.headingDeg { latitude := 1, longitude := 1 } (curCoord c7P)) = 90 ∧
    HEADING_MAX_DEG < 90 ∧
    c7St.cumulative = 0 ∧
    (onPos c7G Mode.other false c7St c7P).cumulative = 10 ∧
    (onPos c7G Mode.other false c7St c7P).lastHeading =
      some (c7G.headingDeg { latitude := 1, longitude := 1 } (curCoord c7P)) := by
  refine ⟨rfl, ?_, by norm_num [HEADING_MAX_DEG], rfl, ?_, ?_⟩
  · norm_num [minAngleDiff, jsMod, c7G]
  · rw [onPos_cumulative_running c7G Mode.other false c7St c7P { latitude := 1, longitude := 1 }
      rfl rfl rfl rfl]
    norm_num [cumulative2, delta, lastHeading1, minAngleDiff, jsMod, c7St, c7P, c7G,
      curCoord, HEADING_MAX_DEG]
  · rw [onPos_lastHeading_running c7G Mode.other false c7St c7P { latitude := 1, longitude := 1 }
      rfl rfl rfl rfl]
    rfl

/-! ## C9: the 60-100 test mode -/

/-- Running state for the C9 counterexample: eleven buffered samples — the
oldest at 120 km/h, the ten newest at 60 km/h — all within the 3 s
retention window. -/
def c9St : AppState :=
  { armed := true, running := true, finished := false,
    startPos := some { latitude := 1, longitude := 1 },
    lastPos := some { latitude := 1, longitude := 1 }, lastHeading := some 0,
    cumulative := 0, startTime := some 0, peakSpeed := 120,
    samples := [{ t := 100, speed := 120 }, { t := 200, speed := 60 }, { t := 300, speed := 60 },
      { t := 400, speed := 60 }, { t := 500, speed := 60 }, { t := 600, speed := 60 },
      { t := 700, speed := 60 }, { t := 800, speed := 60 }, { t := 900, speed := 60 },
      { t := 1000, speed := 60 }, { t := 1100, speed := 60 }],
    kalman := k0, marks := fun _ => none }

/-- Sample for the C9 counterexample: absent speed at t = 1200 ms (the
rebuilt speed over the 0 m segment is 0). -/
def c9P : Sample := { latitude := 1, longitude := 1, accuracy := 5, speed := none, t := 1200 }

/-- The C9 counterexample sample does not finish the run. -/
lemma c9_finishNow_false : finishNow G0 Mode.m60100 false c9St c9P = false := by
  norm_num [finishNow, marks2, captureMarks, captureStep, MILESTONES, cumulative2, delta,
    lastHeading1, minAngleDiff, jsMod, curCoord, elapsedOf, smoothedOf, lastSmoothOf,
    smoothKmhOf, measuredFinal, measuredKmh, measuredRawKmh, lowOrAbsent, dtMsOf, kalman1,
    kalmanUpdate, ghostClamp, headingOk, last10, samples1, rolloutOffset, c9St, c9P, G0,
    List.foldl, HEADING_MAX_DEG, GHOST_THRESHOLD_KMH, REBUILD_SPEED_MAX_DT,
    SPEED_SMOOTH_ALPHA, ROLL_OUT_M, rebuildSpeedFromDelta, lowPass, k0]

/-- Counterexample to C9 as stated: in mode 60-100 while Running, the
trailing rolling buffer after this sample contains an entry at 120 ≥ 100
and entries at 60, yet the run does not finish — the handler only
inspects `samples.slice(-10)`, the last ten entries, and the 120 km/h
entry is older than that. -/
theorem c9_mode60100_cex :
    c9St.running = true ∧
    ((onPos G0 Mode.m60100 false c9St c9P).samples.any fun s => decide (100 ≤ s.speed)) = true ∧
    ((onPos G0 Mode.m60100 false c9St c9P).samples.any fun s => decide (60 ≤ s.speed)) = true ∧
    (onPos G0 Mode.m60100 false c9St c9P).finished = false := by
  have hs : (onPos G0 Mode.m60100 false c9St c9P).samples = samples1 G0 c9St c9P :=
    onPos_samples_running G0 Mode.m60100 false c9St c9P { latitude := 1, longitude := 1 }
      rfl rfl rfl rfl c9_finishNow_false
  have hf : (onPos G0 Mode.m60100 false c9St c9P).finished = finishNow G0 Mode.m60100 false c9St c9P :=
    onPos_finished_running G0 Mode.m60100 false c9St c9P { latitude := 1, longitude := 1 }
      rfl rfl rfl rfl
  refine ⟨rfl, ?_, ?_, ?_⟩
  · rw [hs]
    norm_num [samples1, smoothedOf, lastSmoothOf, smoothKmhOf, measuredFinal, measuredKmh,
      measuredRawKmh, lowOrAbsent, dtMsOf, kalman1, kalmanUpdate, ghostClamp, lastHeading1,
      minAngleDiff, jsMod, curCoord, lowPass, headingOk, c9St, c9P, G0, GHOST_THRESHOLD_KMH,
      HEADING_MAX_DEG, REBUILD_SPEED_MAX_DT, SPEED_SMOOTH_ALPHA, rebuildSpeedFromDelta]
  · rw [hs]
    norm_num [samples1, smoothedOf, lastSmoothOf, smoothKmhOf, measuredFinal, measuredKmh,
      measuredRawKmh, lowOrAbsent, dtMsOf, kalman1, kalmanUpdate, ghostClamp, lastHeading1,
      minAngleDiff, jsMod, curCoord, lowPass, headingOk, c9St, c9P, G0, GHOST_THRESHOLD_KMH,
      HEADING_MAX_DEG, REBUILD_SPEED_MAX_DT, SPEED_SMOOTH_ALPHA, rebuildSpeedFromDelta]
  · rw [hf]
    exact c9_finishNow_false

/-- C9 amended.  In mode 60-100, while Running and while the universal
402 m milestone finish has not triggered, the run finishes exactly when
the **last ten entries** of the rolling sample buffer contain at least
one sample at ≥ 60 km/h and at least one at ≥ 100 km/h, in either
order. -/
theorem c9_mode60100 (G : GeoFns) (ro : Bool) (st : AppState) (p : Sample) (q : Coord)
    (hfin : st.finished = false) (harm : st.armed = true) (hsp : st.startPos = some q)
    (hrun : st.running = true) (h402 : st.marks 402 = none)
    (hc : ¬ 402 - rolloutOffset ro ≤ cumulative2 G st p) :
    ((onPos G Mode.m60100 ro st p).finished = true ↔
      ((last10 (samples1 G st p)).any (fun s => decide (60 ≤ s.speed)) = true ∧
       (last10 (samples1 G st p)).any (fun s => decide (100 ≤ s.speed)) = true)) := by
  rw [onPos_finished_running G Mode.m60100 ro st p q hfin harm hsp hrun]
  unfold finishNow
  have h2 : marks2 G ro st p 402 = none := by
    rw [marks2_of_none G ro st p 402 (by norm_num [MILESTONES]) h402, if_neg hc]
  rw [h2]
  simp [Bool.and_eq_true]

/-- Running state for the C9 amended witness: the buffer holds 70 km/h and
105 km/h entries. -/
def c9wSt : AppState :=
  { armed := true, running := true, finished := false,
    startPos := some { latitude := 1, longitude := 1 },
    lastPos := some { latitude := 1, longitude := 1 }, lastHeading := some 0,
    cumulative := 0, startTime := some 0, peakSpeed := 110,
    samples := [{ t := 900, speed := 70 }, { t := 1000, speed := 105 }],
    kalman := k0, marks := fun _ => none }

/-- Sample for the C9 amended witness. -/
def c9wP : Sample := { latitude := 1, longitude := 1, accuracy := 5, speed := some 10, t := 1100 }

/-- Witness for amended C9: with 70 and 105 km/h among the last ten buffer
entries the sample finishes the run. -/
theorem c9_mode60100_witness :
    (onPos G0 Mode.m60100 false c9wSt c9wP).finished = true := by
  have h := c9_mode60100 G0 false c9wSt c9wP { latitude := 1, longitude := 1 }
    rfl rfl rfl rfl rfl
    (by norm_num [cumulative2, delta, lastHeading1, minAngleDiff, jsMod, curCoord,
      rolloutOffset, c9wSt, c9wP, G0, HEADING_MAX_DEG])
  refine h.mpr ⟨?_, ?_⟩
  · norm_num [last10, samples1, smoothedOf, lastSmoothOf, smoothKmhOf, measuredFinal,
      measuredKmh, measuredRawKmh, lowOrAbsent, dtMsOf, kalman1, kalmanUpdate, ghostClamp,
      lastHeading1, minAngleDiff, jsMod, curCoord, lowPass, headingOk, c9wSt, c9wP, G0,
      GHOST_THRESHOLD_KMH, HEADING_MAX_DEG, REBUILD_SPEED_MAX_DT, SPEED_SMOOTH_ALPHA]
  · norm_num [last10, samples1, smoothedOf, lastSmoothOf, smoothKmhOf, measuredFinal,
      measuredKmh, measuredRawKmh, lowOrAbsent, dtMsOf, kalman1, kalmanUpdate, ghostClamp,
      lastHeading1, minAngleDiff, jsMod, curCoord, lowPass, headingOk, c9wSt, c9wP, G0,
      GHOST_THRESHOLD_KMH, HEADING_MAX_DEG, REBUILD_SPEED_MAX_DT, SPEED_SMOOTH_ALPHA]

-- sanity checks on the embedding (concrete evaluation)
example : rebuildSpeedFromDelta 10 500 = 72 := by norm_num [rebuildSpeedFromDelta]
example : jsMod 630 360 = 270 := by norm_num [jsMod]
example : minAngleDiff 0 90 = 90 := by norm_num [minAngleDiff, jsMod]
example : minAngleDiff 350 10 = 20 := by norm_num [minAngleDiff, jsMod]
example : ghostClamp 2.4 = 0 := by norm_num [ghostClamp, GHOST_THRESHOLD_KMH]
example : ghostClamp 2.5 = 2.5 := by norm_num [ghostClamp, GHOST_THRESHOLD_KMH]
example : (kalmanUpdate { x := 0, p := 1, q := 0.1, r := 2 } 10).x = 110 / 31 := by
  norm_num [kalmanUpdate]
